import Mathlib

/-!
Verification of the Holly Studio long-operation completion-detection protocol.

Shallow embedding of:
- `src/lib/operation-store.ts` (Operation Registry),
- `src/app/api/operation-status/[operationId]/route.ts` (Status Query Endpoint),
- the webhook proxy route (Submission Gateway: `POST`, `handleWebhookRequest`),
- the completion-callback route (Completion Callback Endpoint: `POST`),
- `src/lib/webhook.ts` (`poll`, `startDatabasePollingFallback`/`pollDatabase`,
  `extractLatestAssistantMessage`-style search),
- the zustand store's `refreshProjectStateFromSupabase` merge logic.

JavaScript conventions modelled explicitly:
- an absent string field is modelled as `""` when the code only ever reads it
  through `x || y` (string truthiness), and as `Option` when presence matters;
- `a || b` on strings is `jsStrOr`, on numbers `jsNumOr` (0 is falsy);
- `Date.now()` timestamps are `Nat` milliseconds;
- `JSON.stringify(assets)` is `stringifyAssets` over an association list.
-/

namespace HollyStudio

/-- Characters `p` are a leading segment of `l` (models `String.prototype.startsWith`). -/
def charsLead : List Char → List Char → Bool
  | [], _ => true
  | _ :: _, [] => false
  | a :: p, b :: l => a = b && charsLead p l

/-- `sub` occurs contiguously inside `l` (models `String.prototype.includes`). -/
def charsHasSub (l sub : List Char) : Bool :=
  charsLead sub l ||
    match l with
    | [] => false
    | _ :: t => charsHasSub t sub

/-- Models JavaScript `s.includes(sub)` for the substring checks in the error handlers. -/
def jsIncludes (s sub : String) : Bool :=
  charsHasSub s.toList sub.toList

/-- Models JavaScript `s.startsWith(p)`. -/
def jsStartsWith (s p : String) : Bool :=
  charsLead p.toList s.toList

/-- JavaScript `a || b` where `a` is an optional string field (`undefined` and `""` are falsy). -/
def jsStrOr (o : Option String) (d : String) : String :=
  match o with
  | some s => if s = "" then d else s
  | none => d

/-- JavaScript `a || b` where `a` is an optional number field (`undefined` and `0` are falsy). -/
def jsNumOr (o : Option Nat) (d : Nat) : Nat :=
  match o with
  | some n => if n = 0 then d else n
  | none => d

/-- Budget pair `{spent, total}` from the project state. -/
structure Budget where
  spent : Int
  total : Int
deriving Repr, DecidableEq

/-- A raw message as stored in the external database's `state_data.history`.
Fields that the code reads through `||` chains are plain strings with `""` for absent
(`content`/`message` and `timestamp`/`created_at` are the two backend/frontend spellings). -/
structure RawMsg where
  content : String
  message : String
  role : String
  timestamp : String
  created_at : String
deriving Repr, DecidableEq

/-- Serialized assets mapping: models `JSON.stringify(assets)` on an association list
(the code only ever compares these serializations for equality). -/
def stringifyAssets (a : List (String × String)) : String :=
  "\x7b" ++ String.intercalate "," (a.map (fun kv => "\"" ++ kv.1 ++ "\":" ++ kv.2)) ++ "\x7d"

/-- `state_data` of a `project_states` row in the external database.
All fields are optional exactly as the code guards them (`state_data?.history || []` etc.). -/
structure StateData where
  history : Option (List RawMsg)
  assets : Option (List (String × String))
  phase : Option String
  checklist : Option (List (String × Bool))
  budget : Option Budget
deriving Repr, DecidableEq

/-- The pre-operation Baseline snapshot (`operationBaseline` in `pollForOperationCompletion`). -/
structure OperationBaseline where
  latestMessageContent : String
  latestMessageTimestamp : String
  assetHash : String
  historyLength : Nat
deriving Repr, DecidableEq

/-- `latestMessage?.content || latestMessage?.message || ''`. -/
def effContent (m : Option RawMsg) : String :=
  match m with
  | none => ""
  | some m => if m.content = "" then m.message else m.content

/-- `latestMessage?.timestamp || latestMessage?.created_at || ''`. -/
def effTimestamp (m : Option RawMsg) : String :=
  match m with
  | none => ""
  | some m => if m.timestamp = "" then m.created_at else m.timestamp

/-- Baseline capture before the operation starts (webhook.ts lines 114-149):
uses the row's latest message and asset hash when `state_data?.history` is present,
otherwise the empty defaults (also used on fetch failure). -/
def captureBaseline (row : Option StateData) : OperationBaseline :=
  match row with
  | some sd =>
      match sd.history with
      | some h =>
          { latestMessageContent := effContent h.getLast?
            latestMessageTimestamp := effTimestamp h.getLast?
            assetHash := stringifyAssets (sd.assets.getD [])
            historyLength := h.length }
      | none =>
          { latestMessageContent := "", latestMessageTimestamp := ""
            assetHash := "\x7b\x7d", historyLength := 0 }
  | none =>
      { latestMessageContent := "", latestMessageTimestamp := ""
        assetHash := "\x7b\x7d", historyLength := 0 }

/-- The normalized result shape `{responseToUser, updatedState}`: `updatedStateJson` part. -/
structure StateJson where
  project_id : Option String
  history : List RawMsg
  assets : List (String × String)
  phase : String
  checklist : List (String × Bool)
  budget : Option Budget
deriving Repr, DecidableEq

/-- The canonical result shape `{response_to_user, updatedStateJson}`. -/
structure WebhookResponse where
  response_to_user : String
  updatedStateJson : StateJson
deriving Repr, DecidableEq

/-! ### Database polling fallback (`startDatabasePollingFallback` / `pollDatabase`) -/

/-- Outcome of one Supabase fetch inside `pollDatabase`:
the query throws, returns no row (`!currentSupabaseProject`), or returns a row. -/
inductive DbFetch where
  | fetchFailure
  | noRow
  | row (sd : StateData)
deriving Repr, DecidableEq

/-- What one `pollDatabase` invocation does: resolve the promise, reject it,
or schedule the next poll after `delayMs`. -/
inductive DbAction where
  | resolveWith (r : WebhookResponse)
  | rejectWith (msg : String)
  | continuePoll (delayMs : Nat)
deriving Repr, DecidableEq

/-- `pollInterval` of the database fallback: 15 seconds. -/
def dbPollInterval : Nat := 15000

/-- `maxMonitoringTime`: 20 minutes. -/
def maxMonitoringTime : Nat := 20 * 60 * 1000

/-- `latestAssistantMessage.content || latestAssistantMessage.message`. -/
def effText (m : RawMsg) : String :=
  if m.content = "" then m.message else m.content

/-- `currentHistory.slice().reverse().find(msg => msg.role === 'assistant' && (msg.content || msg.message))`:
most-recent-first scan for the latest assistant message with non-empty text. -/
def findLatestAssistant (h : List RawMsg) : Option RawMsg :=
  h.reverse.find? (fun m => m.role == "assistant" && (!(m.content == "") || !(m.message == "")))

/-- The "still processing" pseudo-result resolved at the 20-minute ceiling. -/
def dbTimeoutResponse (projectId : String) (elapsedMinutes : Nat) : WebhookResponse :=
  { response_to_user :=
      "⏳ Your operation has been running for " ++ toString elapsedMinutes ++
      " minutes. Long operations can take up to 20 minutes. Please check the sidebar for updates, or refresh the page to check the latest status."
    updatedStateJson :=
      { project_id := some projectId
        history := []
        assets := []
        phase := "processing"
        checklist := []
        budget := some ⟨0, 15⟩ } }

/-- The success result `pollDatabase` resolves with once an assistant message is found. -/
def dbSuccessResponse (projectId : String) (m : RawMsg) (sd : StateData)
    (currentHistory : List RawMsg) : WebhookResponse :=
  { response_to_user := effText m
    updatedStateJson :=
      { project_id := some projectId
        history := currentHistory
        assets := sd.assets.getD []
        phase := jsStrOr sd.phase "completed"
        checklist := sd.checklist.getD []
        budget := some (sd.budget.getD ⟨0, 15⟩) } }

/-- One iteration of `pollDatabase` (webhook.ts lines 557-677), as a function of the
elapsed time since the fallback started and the outcome of the Supabase fetch:
1. if `elapsed > maxMonitoringTime`, resolve with the pseudo-result;
2. on a fetch exception, reschedule at `pollInterval * 2` (catch block);
3. on a missing row, reschedule at `pollInterval`;
4. otherwise compare latest-message content, latest-message timestamp and the
   serialized asset hash against the baseline; on any difference resolve with the
   latest assistant message if one exists, else keep polling. -/
def pollDatabaseStep (projectId : String) (b : OperationBaseline) (elapsed : Nat) :
    DbFetch → DbAction
  | .fetchFailure =>
      if maxMonitoringTime < elapsed then
        .resolveWith (dbTimeoutResponse projectId (elapsed / 60000))
      else
        .continuePoll (dbPollInterval * 2)
  | .noRow =>
      if maxMonitoringTime < elapsed then
        .resolveWith (dbTimeoutResponse projectId (elapsed / 60000))
      else
        .continuePoll dbPollInterval
  | .row sd =>
      if maxMonitoringTime < elapsed then
        .resolveWith (dbTimeoutResponse projectId (elapsed / 60000))
      else
        let currentHistory := sd.history.getD []
        let currentLatestContent := effContent currentHistory.getLast?
        let currentLatestTimestamp := effTimestamp currentHistory.getLast?
        let currentAssetHash := stringifyAssets (sd.assets.getD [])
        if currentLatestContent ≠ b.latestMessageContent ∨
            currentLatestTimestamp ≠ b.latestMessageTimestamp ∨
            currentAssetHash ≠ b.assetHash then
          match findLatestAssistant currentHistory with
          | some m => .resolveWith (dbSuccessResponse projectId m sd currentHistory)
          | none => .continuePoll dbPollInterval
        else
          .continuePoll dbPollInterval

/-! ### Status-endpoint polling phase (`poll` inside `pollForOperationCompletion`) -/

/-- The parsed JSON body of a 200 response from the Status Query Endpoint. -/
structure StatusData where
  status : String
  result : Option WebhookResponse
  error : Option String
deriving Repr, DecidableEq

/-- What one fetch of `/api/operation-status/:id` produced, as observed by `poll`:
an HTTP failure with a status code, an empty body, an undecodable body,
a parsed body, or a thrown exception (network failure etc.) carrying its message. -/
inductive StatusResponse where
  | httpError (code : Nat)
  | emptyBody
  | invalidJson
  | statusData (d : StatusData)
  | thrown (msg : String)
deriving Repr, DecidableEq

/-- What one `poll` invocation does next. -/
inductive PollAction where
  | continuePoll (delayMs : Nat)
  | fallback (delayMs : Nat)
  | resolveWith (r : WebhookResponse)
  | resolveEarlyProbe
  | rejectWith (msg : String)
deriving Repr, DecidableEq

/-- Fallback response synthesized when a completed operation carries no result
(webhook.ts lines 306-319; note: no `budget` field in this literal). -/
def completedFallbackResponse (projectId : String) : WebhookResponse :=
  { response_to_user := "Your operation completed successfully! Please check the sidebar for updates."
    updatedStateJson :=
      { project_id := some projectId
        history := []
        assets := []
        phase := "completed"
        checklist := []
        budget := none } }

/-- The outer catch handler of `poll` (webhook.ts lines 355-391):
JSON errors retry at triple interval for 2 minutes, network/timeout errors back off
(capped at 10s) for 5 minutes, then long operations fall back, short ones retry. -/
def pollCatchHandler (elapsed interval : Nat) (msg : String) : PollAction :=
  if jsIncludes msg "JSON" && decide (elapsed < 120000) then
    .continuePoll (interval * 3)
  else if (jsIncludes msg "fetch" || jsIncludes msg "timeout") && decide (elapsed < 300000) then
    .continuePoll (min (interval * 4) 10000)
  else if 60000 < elapsed then
    .fallback 0
  else
    .continuePoll (interval * 2)

/-- Body of one `poll` invocation after the poll interval has been chosen
(webhook.ts lines 190-391). `gatewayTimeouts` is the counter value before this poll;
`probeComplete` is the outcome `isOperationCompleteFromState` would report if the
early Supabase probe runs. -/
def pollStepBody (projectId : String) (elapsed gatewayTimeouts : Nat) (probeComplete : Bool)
    (interval : Nat) (resp : StatusResponse) : PollAction :=
  match resp with
  | .httpError code =>
      if code = 404 then
        if 30000 < elapsed then .fallback 2000
        else .continuePoll interval
      else if code = 524 ∨ code = 502 ∨ code = 503 then
        if elapsed < 60000 ∧ 3 ≤ gatewayTimeouts + 1 then
          if probeComplete then .resolveEarlyProbe
          else .continuePoll (interval * 2)
        else .continuePoll (interval * 2)
      else
        -- throw new Error(`Operation status check failed: ...`) → outer catch
        pollCatchHandler elapsed interval ("Operation status check failed: " ++ toString code)
  | .emptyBody => .continuePoll interval
  | .invalidJson => .continuePoll (interval * 2)
  | .statusData d =>
      if d.status = "completed" then
        match d.result with
        | some r => .resolveWith r
        | none => .resolveWith (completedFallbackResponse projectId)
      else if d.status = "error" then
        .rejectWith (jsStrOr d.error "Operation failed")
      else if d.status = "pending" ∧ 60000 < elapsed then
        .fallback 1000
      else
        .continuePoll interval
  | .thrown msg => pollCatchHandler elapsed interval msg

/-- One `poll` invocation (webhook.ts lines 168-392): phase selection by elapsed time
(FastPoll 500ms below 30s, MediumPoll 2s below 120s, otherwise immediate switch to the
database fallback before any fetch), then the response handling of `pollStepBody`. -/
def pollStep (projectId : String) (elapsed gatewayTimeouts : Nat) (probeComplete : Bool)
    (resp : StatusResponse) : PollAction :=
  if elapsed < 30000 then
    pollStepBody projectId elapsed gatewayTimeouts probeComplete 500 resp
  else if elapsed < 120000 then
    pollStepBody projectId elapsed gatewayTimeouts probeComplete 2000 resp
  else
    .fallback 0

/-- Is this action the switch to the database fallback? -/
def PollAction.isFallback : PollAction → Bool
  | .fallback _ => true
  | _ => false

/-- Responses of the Status Query Endpoint that the transition claim ranges over:
everything the endpoint itself reports (not-found, the gateway-level codes, empty or
undecodable bodies, parsed statuses) as opposed to thrown network errors or other
HTTP failure codes, which go through the separate catch-handler retry windows. -/
def endpointReport : StatusResponse → Bool
  | .httpError code => code = 404 ∨ code = 524 ∨ code = 502 ∨ code = 503
  | .thrown _ => false
  | _ => true

/-! ### Operation Registry (`operation-store.ts`) -/

/-- `status: 'pending' | 'completed' | 'error'`. -/
inductive OpStatus where
  | pending
  | completed
  | error
deriving Repr, DecidableEq

/-- One `OperationState` record of the registry; `result`/`error` are the optional fields. -/
structure OperationState where
  status : OpStatus
  startTime : Nat
  result : Option WebhookResponse
  error : Option String
deriving Repr, DecidableEq

/-- The registry's backing map, keyed by operation id. -/
abbrev OpStore := List (String × OperationState)

/-- `store.get(id)`. -/
def storeGet : OpStore → String → Option OperationState
  | [], _ => none
  | (k, v) :: rest, id => if k = id then some v else storeGet rest id

/-- `store.delete(id)`. -/
def storeDelete (id : String) (s : OpStore) : OpStore :=
  s.filter (fun kv => kv.1 ≠ id)

/-- `store.set(id, st)`: replaces any existing binding. -/
def storeSet (id : String) (st : OperationState) (s : OpStore) : OpStore :=
  (id, st) :: storeDelete id s

/-- `store.keys()`. -/
def storeKeys (s : OpStore) : List String :=
  s.map (·.1)

/-- `CLEANUP_INTERVAL`: one hour, doubling as the retention window. -/
def CLEANUP_INTERVAL : Nat := 60 * 60 * 1000

/-- The hourly `cleanup` sweep (operation-store.ts lines 53-67): delete every record
with `startTime < now - CLEANUP_INTERVAL` whose status is not `pending`. -/
def cleanup (now : Nat) (s : OpStore) : OpStore :=
  s.filter (fun kv => ¬(kv.2.startTime < now - CLEANUP_INTERVAL ∧ kv.2.status ≠ .pending))

/-! ### Status Query Endpoint (`operation-status/[operationId]/route.ts`, GET) -/

/-- The status `GET` handler, returning the HTTP status code and the store afterwards:
400 on a missing or ill-formatted id, 404 when unknown, 410 (with eviction) when the
record is non-pending and older than one hour, 200 otherwise. -/
def statusGET (now : Nat) (s : OpStore) (operationId : String) : Nat × OpStore :=
  if operationId = "" then (400, s)
  else if ¬ jsStartsWith operationId "op_" then (400, s)
  else
    match storeGet s operationId with
    | none => (404, s)
    | some operation =>
        if operation.startTime < now - (60 * 60 * 1000) ∧ operation.status ≠ .pending then
          (410, storeDelete operationId s)
        else
          (200, s)

/-! ### Submission Gateway (webhook proxy route: POST and `handleWebhookRequest`) -/

/-- The record written synchronously by the accept path
(`operationStore.set(operationId, { status: 'pending', startTime: Date.now() })`). -/
def acceptRecord (now : Nat) : OperationState :=
  { status := .pending, startTime := now, result := none, error := none }

/-- The record written by the `.catch` attached to the detached background call. -/
def backgroundCatchRecord (now : Nat) (msg : String) : OperationState :=
  { status := .error, startTime := now, result := none, error := some msg }

/-- `state_data` of the n8n structured response shape (`rawResponse[0].state_data`).
`pending_question` is read through `current_step_info?.pending_question ||`. -/
structure UpstreamStateData where
  pending_question : Option String
  phase : Option String
  assets : List (String × String)
  checklist : Option (List (String × Bool))
  budget : Option Budget
deriving Repr, DecidableEq

/-- The observed response shapes of the external workflow: plain text, a structured
array carrying `state_data`, the already-canonical shape, or an unknown payload
(kept opaque as its serialization). -/
inductive RawUpstream where
  | text (s : String)
  | structured (sd : UpstreamStateData)
  | canonical (r : WebhookResponse)
  | unknown (serialized : String)
deriving Repr, DecidableEq

/-- Shape normalization of `handleWebhookRequest` (proxy route lines 136-195):
maps every observed shape into the canonical `{response_to_user, updatedStateJson}`. -/
def normalizeUpstream (project_id : String) : RawUpstream → WebhookResponse
  | .text s =>
      { response_to_user := s
        updatedStateJson :=
          { project_id := some project_id, history := [], assets := []
            phase := "text_interaction", checklist := [], budget := none } }
  | .structured sd =>
      { response_to_user := jsStrOr sd.pending_question "Operation completed successfully"
        updatedStateJson :=
          { project_id := some project_id
            history := []
            assets := sd.assets ++ [("phase", jsStrOr sd.phase "")]
            phase := jsStrOr sd.phase "initial"
            checklist := sd.checklist.getD []
            budget := some (sd.budget.getD ⟨0, 15⟩) } }
  | .canonical r => r
  | .unknown serialized =>
      { response_to_user := "Operation completed, but response format was unexpected."
        updatedStateJson :=
          { project_id := some project_id, history := []
            assets := [("raw_response", serialized)]
            phase := "unknown", checklist := [], budget := none } }

/-- The outcome of the detached `fetch(WEBHOOK_URL, ...)` as seen by
`handleWebhookRequest`: a decoded OK body, a non-OK HTTP status (with its status text
and the first 200 chars of its body), the abort of the 15-minute controller, or any
other thrown exception carrying its message. -/
inductive UpstreamOutcome where
  | ok (raw : RawUpstream)
  | httpError (code : Nat) (statusText : String) (bodySnippet : String)
  | abortError
  | thrown (msg : String)
deriving Repr, DecidableEq

/-- Message of the error thrown for a non-gateway non-OK response:
`Webhook request failed: ${status} ${statusText}${details ? ' - ' + details : ''}`. -/
def webhookFailMessage (code : Nat) (statusText bodySnippet : String) : String :=
  "Webhook request failed: " ++ toString code ++ " " ++ statusText ++
    (if bodySnippet = "" then "" else " - " ++ bodySnippet)

/-- The registry record `handleWebhookRequest` writes for its operation
(proxy route lines 65-255): 502/503/524 and aborts keep the record `pending`;
a thrown error whose message mentions `524` or `timeout` also keeps it `pending`;
an OK response stores the normalized result as `completed`; everything else is `error`.
`prevStart` is `operationStore.get(operationId)?.startTime` (read back through `|| Date.now()`). -/
def handleWebhookResult (prevStart : Option Nat) (now : Nat) (projectId : String) :
    UpstreamOutcome → OperationState
  | .ok raw =>
      { status := .completed, startTime := jsNumOr prevStart now
        result := some (normalizeUpstream projectId raw), error := none }
  | .httpError code statusText bodySnippet =>
      if code = 524 ∨ code = 502 ∨ code = 503 then
        { status := .pending, startTime := jsNumOr prevStart now, result := none, error := none }
      else
        let msg := webhookFailMessage code statusText bodySnippet
        if jsIncludes msg "524" || jsIncludes msg "timeout" then
          { status := .pending, startTime := jsNumOr prevStart now, result := none, error := none }
        else
          { status := .error, startTime := jsNumOr prevStart now, result := none, error := some msg }
  | .abortError =>
      { status := .pending, startTime := jsNumOr prevStart now, result := none, error := none }
  | .thrown msg =>
      if jsIncludes msg "524" || jsIncludes msg "timeout" then
        { status := .pending, startTime := jsNumOr prevStart now, result := none, error := none }
      else
        { status := .error, startTime := jsNumOr prevStart now, result := none, error := some msg }

/-- A gateway-level failure of the intermediary network layer in the claim's sense:
one of the codes 502/503/524, or the Gateway's own 15-minute abort. -/
def isGatewayOutcome : UpstreamOutcome → Bool
  | .abortError => true
  | .httpError code _ _ => decide (code = 524 ∨ code = 502 ∨ code = 503)
  | _ => false

/-- A genuine application-level failure in the claim's sense: a non-gateway HTTP error
or a thrown exception whose message does not speak of a timeout or a 524. -/
def isApplicationFailure : UpstreamOutcome → Bool
  | .httpError code statusText bodySnippet =>
      decide (¬(code = 524 ∨ code = 502 ∨ code = 503)) &&
      !(jsIncludes (webhookFailMessage code statusText bodySnippet) "524") &&
      !(jsIncludes (webhookFailMessage code statusText bodySnippet) "timeout")
  | .thrown msg => !(jsIncludes msg "524") && !(jsIncludes msg "timeout")
  | _ => false

/-! ### Completion Callback Endpoint (operation-complete route, POST) -/

/-- `result.updatedStateJson` of a callback payload; every field is read with a default. -/
structure CallbackStateJson where
  assets : Option (List (String × String))
  phase : Option String
  checklist : Option (List (String × Bool))
  budget : Option Budget
deriving Repr, DecidableEq

/-- `result` of a callback payload. -/
structure CallbackResult where
  response_to_user : Option String
  updatedStateJson : Option CallbackStateJson
deriving Repr, DecidableEq

/-- The parsed body of a completion callback; each top-level field may be absent. -/
structure CallbackPayload where
  operationId : Option String
  projectId : Option String
  result : Option CallbackResult
  error : Option String
deriving Repr, DecidableEq

/-- JavaScript truthiness check `!x` for an optional string field. -/
def truthyStr (o : Option String) : Bool :=
  match o with
  | some s => s ≠ ""
  | none => false

/-- The result payload the callback endpoint stores (callback route lines 44-54). -/
def callbackResultPayload (projectId : Option String) (resp : String)
    (sj : CallbackStateJson) : WebhookResponse :=
  { response_to_user := resp
    updatedStateJson :=
      { project_id := projectId
        history := []
        assets := sj.assets.getD []
        phase := jsStrOr sj.phase "completed"
        checklist := sj.checklist.getD []
        budget := some (sj.budget.getD ⟨0, 15⟩) } }

/-- The completion-callback `POST` handler (callback route lines 24-82), returning the HTTP
status code and the registry afterwards: 400 when `operationId` or `result` is falsy;
500 when the later field accesses (`result.response_to_user.substring`,
`result.updatedStateJson.assets`) throw; otherwise stores a `completed` record keyed by
`operationId`, keeping a truthy existing `startTime`, and returns 200. -/
def processCallback (now : Nat) (s : OpStore) (p : CallbackPayload) : Nat × OpStore :=
  if ¬(truthyStr p.operationId = true) ∨ p.result = none then (400, s)
  else
    match p.operationId, p.result with
    | some opId, some r =>
        (match r.response_to_user with
         | none => (500, s)
         | some resp =>
             match r.updatedStateJson with
             | none => (500, s)
             | some sj =>
                 let prev := storeGet s opId
                 let record : OperationState :=
                   { status := .completed
                     startTime := jsNumOr (prev.map (·.startTime)) now
                     result := some (callbackResultPayload p.projectId resp sj)
                     error := none }
                 (200, storeSet opId record s))
    | _, _ => (400, s)

/-- Every record any writer ever stores in the registry: the accept path, the detached
`.catch`, the background continuation `handleWebhookRequest`, or the callback endpoint. -/
inductive WriterRecord : OperationState → Prop where
  | accept (now : Nat) : WriterRecord (acceptRecord now)
  | backgroundCatch (now : Nat) (msg : String) : WriterRecord (backgroundCatchRecord now msg)
  | background (prevStart : Option Nat) (now : Nat) (projectId : String) (out : UpstreamOutcome) :
      WriterRecord (handleWebhookResult prevStart now projectId out)
  | callback (projectId : Option String) (resp : String) (sj : CallbackStateJson)
      (startTime : Nat) :
      WriterRecord
        { status := .completed, startTime := startTime
          result := some (callbackResultPayload projectId resp sj), error := none }

/-! ### State reconciliation (`refreshProjectStateFromSupabase` history merge) -/

/-- A frontend-normalized message of the Application State Store. -/
structure Message where
  id : String
  content : String
  role : String
  timestamp : Nat
  mediaUrls : List String
  error : Option String
deriving Repr, DecidableEq

/-- `recentMsg.error || undefined` (an empty string is falsy and becomes `undefined`). -/
def jsErrField (o : Option String) : Option String :=
  match o with
  | some s => if s = "" then none else some s
  | none => none

/-- Insert into a timestamp-sorted list. -/
def insertByTs (m : Message) : List Message → List Message
  | [] => [m]
  | x :: xs => if m.timestamp ≤ x.timestamp then m :: x :: xs else x :: insertByTs m xs

/-- `mergedHistory.sort((a, b) => new Date(a.timestamp).getTime() - new Date(b.timestamp).getTime())`:
sorting by timestamp, modelled as insertion sort (any timestamp-sorting permutation). -/
def sortByTs : List Message → List Message
  | [] => []
  | x :: xs => insertByTs x (sortByTs xs)

/-- One step of the recent-message merge loop: skip the recent message when its id is
already present in the accumulated history, otherwise push a field-by-field copy
(`mediaUrls: recentMsg.mediaUrls || []`, `error: recentMsg.error || undefined`). -/
def mergeStep (acc : List Message) (r : Message) : List Message :=
  if acc.any (fun m => m.id == r.id) then acc
  else acc ++ [{ id := r.id, content := r.content, role := r.role,
                 timestamp := r.timestamp, mediaUrls := r.mediaUrls,
                 error := jsErrField r.error }]

/-- `recentUserMessages`: local messages authored by the user within the last 30 seconds
(`msg.role === 'user' && new Date(msg.timestamp).getTime() > (now - 30000)`). -/
def recentUserMessages (now : Nat) (existingHistory : List Message) : List Message :=
  existingHistory.filter (fun m => m.role == "user" && decide (now - 30000 < m.timestamp))

/-- The history-merge decision of `refreshProjectStateFromSupabase` (store lines 340-376):
`useSupabaseHistory` holds when the Supabase history is strictly longer; recent local
user messages are protected; when the Supabase base is chosen, every recent user message
whose id is absent is appended (as a field copy), then the list is sorted by timestamp. -/
def mergeHistories (now : Nat) (existingHistory normalizedSupabaseHistory : List Message) :
    List Message :=
  if 0 < (recentUserMessages now existingHistory).length ∧
      ¬(existingHistory.length < normalizedSupabaseHistory.length) then
    existingHistory
  else if existingHistory.length < normalizedSupabaseHistory.length then
    sortByTs ((recentUserMessages now existingHistory).foldl mergeStep
      normalizedSupabaseHistory)
  else
    existingHistory

/-! ## Theorems -/

/-- C5: every database-fallback poll past the 20-minute ceiling resolves (never rejects)
with the "still processing, check back" pseudo-result, whatever the fetch outcome. -/
theorem C5_ceiling_resolves (pid : String) (b : OperationBaseline) (elapsed : Nat)
    (fetch : DbFetch) (h : maxMonitoringTime < elapsed) :
    pollDatabaseStep pid b elapsed fetch =
      .resolveWith (dbTimeoutResponse pid (elapsed / 60000)) := by
  cases fetch <;> simp [pollDatabaseStep, h]

/-- Witness for C5 at a concrete input past the ceiling. -/
theorem C5_ceiling_resolves_witness :
    pollDatabaseStep "p1" ⟨"", "", "\x7b\x7d", 0⟩ 1200001 .noRow =
      .resolveWith (dbTimeoutResponse "p1" 20) :=
  C5_ceiling_resolves "p1" ⟨"", "", "\x7b\x7d", 0⟩ 1200001 .noRow (by decide)

/-- C10 counterexample: a poll that finds no project row reschedules at the normal
15-second interval, not at the doubled interval the claim asserts for every error. -/
theorem C10_counterexample :
    pollDatabaseStep "p1" ⟨"", "", "\x7b\x7d", 0⟩ 0 .noRow = .continuePoll dbPollInterval ∧
    dbPollInterval ≠ dbPollInterval * 2 := by
  exact ⟨by decide, by decide⟩

/-- C10 (amended): the database-fallback rejection continuation is never invoked — every
step either resolves or reschedules; fetch exceptions reschedule at the doubled interval
(30s) and a missing project row at the normal interval (15s). -/
theorem C10_never_rejects (pid : String) (b : OperationBaseline) (elapsed : Nat)
    (fetch : DbFetch) :
    (∀ msg, pollDatabaseStep pid b elapsed fetch ≠ .rejectWith msg) ∧
    ((∃ r, pollDatabaseStep pid b elapsed fetch = .resolveWith r) ∨
     (∃ d, pollDatabaseStep pid b elapsed fetch = .continuePoll d)) ∧
    (elapsed ≤ maxMonitoringTime →
      pollDatabaseStep pid b elapsed .fetchFailure = .continuePoll (dbPollInterval * 2)) ∧
    (elapsed ≤ maxMonitoringTime →
      pollDatabaseStep pid b elapsed .noRow = .continuePoll dbPollInterval) := by
  have hfe : ∀ el, el ≤ maxMonitoringTime →
      pollDatabaseStep pid b el .fetchFailure = .continuePoll (dbPollInterval * 2) := by
    intro el hel
    simp [pollDatabaseStep, Nat.not_lt.mpr hel]
  have hnr : ∀ el, el ≤ maxMonitoringTime →
      pollDatabaseStep pid b el .noRow = .continuePoll dbPollInterval := by
    intro el hel
    simp [pollDatabaseStep, Nat.not_lt.mpr hel]
  refine ⟨?_, ?_, hfe elapsed, hnr elapsed⟩
  · intro msg
    cases fetch <;> (simp only [pollDatabaseStep]; repeat' split) <;> simp
  · cases fetch <;> (simp only [pollDatabaseStep]; repeat' split) <;>
      first
        | exact Or.inl ⟨_, rfl⟩
        | exact Or.inr ⟨_, rfl⟩

/-- Witness for the amended C10 at a concrete input: a fetch exception inside the window
reschedules at the doubled 30-second interval. -/
theorem C10_never_rejects_witness :
    5000 ≤ maxMonitoringTime ∧
    pollDatabaseStep "p1" ⟨"", "", "\x7b\x7d", 0⟩ 5000 .fetchFailure =
      .continuePoll (dbPollInterval * 2) :=
  ⟨by decide,
   (C10_never_rejects "p1" ⟨"", "", "\x7b\x7d", 0⟩ 5000 .fetchFailure).2.2.1 (by decide)⟩

/-- C1: for a database-fallback poll inside the monitoring window that fetched a project
row, completion is signalled exactly when the latest-message content, the latest-message
timestamp, or the serialized asset hash differs from the pre-operation Baseline; on a
signal the step resolves with the most-recent assistant message with non-empty text
(which the most-recent-first scan guarantees to be an assistant message with text),
and when no such message exists despite the change it keeps polling. -/
theorem C1_fallback_completion_detection (pid : String) (b : OperationBaseline)
    (elapsed : Nat) (sd : StateData) (h : elapsed ≤ maxMonitoringTime) :
    ((∃ r, pollDatabaseStep pid b elapsed (.row sd) = .resolveWith r) ↔
      ((effContent (sd.history.getD []).getLast? ≠ b.latestMessageContent ∨
        effTimestamp (sd.history.getD []).getLast? ≠ b.latestMessageTimestamp ∨
        stringifyAssets (sd.assets.getD []) ≠ b.assetHash) ∧
       (findLatestAssistant (sd.history.getD [])).isSome = true)) ∧
    (∀ m, findLatestAssistant (sd.history.getD []) = some m →
      (effContent (sd.history.getD []).getLast? ≠ b.latestMessageContent ∨
       effTimestamp (sd.history.getD []).getLast? ≠ b.latestMessageTimestamp ∨
       stringifyAssets (sd.assets.getD []) ≠ b.assetHash) →
      pollDatabaseStep pid b elapsed (.row sd) =
        .resolveWith (dbSuccessResponse pid m sd (sd.history.getD []))) ∧
    ((effContent (sd.history.getD []).getLast? ≠ b.latestMessageContent ∨
      effTimestamp (sd.history.getD []).getLast? ≠ b.latestMessageTimestamp ∨
      stringifyAssets (sd.assets.getD []) ≠ b.assetHash) →
      findLatestAssistant (sd.history.getD []) = none →
      pollDatabaseStep pid b elapsed (.row sd) = .continuePoll dbPollInterval) ∧
    (∀ m, findLatestAssistant (sd.history.getD []) = some m →
      m.role = "assistant" ∧ (m.content ≠ "" ∨ m.message ≠ "")) := by
  have hne : ¬ (maxMonitoringTime < elapsed) := Nat.not_lt.mpr h
  have hstep : pollDatabaseStep pid b elapsed (.row sd) =
      (if effContent (sd.history.getD []).getLast? ≠ b.latestMessageContent ∨
          effTimestamp (sd.history.getD []).getLast? ≠ b.latestMessageTimestamp ∨
          stringifyAssets (sd.assets.getD []) ≠ b.assetHash then
        match findLatestAssistant (sd.history.getD []) with
        | some m => .resolveWith (dbSuccessResponse pid m sd (sd.history.getD []))
        | none => .continuePoll dbPollInterval
      else .continuePoll dbPollInterval) := by
    simp only [pollDatabaseStep, if_neg hne]
  refine ⟨?_, ?_, ?_, ?_⟩
  · constructor
    · intro ⟨r, hr⟩
      rw [hstep] at hr
      by_cases hsig : effContent (sd.history.getD []).getLast? ≠ b.latestMessageContent ∨
          effTimestamp (sd.history.getD []).getLast? ≠ b.latestMessageTimestamp ∨
          stringifyAssets (sd.assets.getD []) ≠ b.assetHash
      · refine ⟨hsig, ?_⟩
        rw [if_pos hsig] at hr
        cases hf : findLatestAssistant (sd.history.getD []) with
        | some m => simp [hf]
        | none => rw [hf] at hr; exact absurd hr (by simp)
      · rw [if_neg hsig] at hr
        exact absurd hr (by simp)
    · intro ⟨hsig, hsome⟩
      rw [hstep, if_pos hsig]
      cases hf : findLatestAssistant (sd.history.getD []) with
      | some m => exact ⟨_, rfl⟩
      | none => rw [hf] at hsome; simp at hsome
  · intro m hf hsig
    rw [hstep, if_pos hsig, hf]
  · intro hsig hf
    rw [hstep, if_pos hsig, hf]
  · intro m hf
    have hp := List.find?_some hf
    simp only [Bool.and_eq_true, Bool.or_eq_true, Bool.not_eq_true', beq_iff_eq,
      beq_eq_false_iff_ne, ne_eq] at hp
    exact ⟨hp.1, by tauto⟩

/-- Witness for C1 at a concrete input: the baseline content differs and the history
carries an assistant message, so the step resolves with that message. -/
theorem C1_fallback_completion_detection_witness :
    pollDatabaseStep "p1" ⟨"old question", "2024-01-01", "\x7b\x7d", 1⟩ 30000
        (.row ⟨some [⟨"hi", "", "user", "2024-01-02", ""⟩,
                     ⟨"", "All done!", "assistant", "2024-01-03", ""⟩], none, none, none, none⟩) =
      .resolveWith
        (dbSuccessResponse "p1" ⟨"", "All done!", "assistant", "2024-01-03", ""⟩
          ⟨some [⟨"hi", "", "user", "2024-01-02", ""⟩,
                 ⟨"", "All done!", "assistant", "2024-01-03", ""⟩], none, none, none, none⟩
          [⟨"hi", "", "user", "2024-01-02", ""⟩,
           ⟨"", "All done!", "assistant", "2024-01-03", ""⟩]) :=
  (C1_fallback_completion_detection "p1" ⟨"old question", "2024-01-01", "\x7b\x7d", 1⟩ 30000
      ⟨some [⟨"hi", "", "user", "2024-01-02", ""⟩,
             ⟨"", "All done!", "assistant", "2024-01-03", ""⟩], none, none, none, none⟩
      (by decide)).2.1
    ⟨"", "All done!", "assistant", "2024-01-03", ""⟩ (by decide) (by decide)

/-- C2 counterexample: a pending status report at 61 seconds elapsed, with zero
gateway-level failures ever observed, already triggers the switch to DatabaseFallback —
none of the claim's three triggers (elapsed ≥ 120s; not-found for ≥ 30s; pending ≥ 60s
combined with repeated gateway failures) holds at this input. -/
theorem C2_counterexample :
    pollStep "p1" 61000 0 false (.statusData ⟨"pending", none, none⟩) = .fallback 1000 ∧
    ¬ (120000 ≤ 61000) ∧
    (StatusResponse.statusData ⟨"pending", none, none⟩ ≠ .httpError 404) ∧
    (0 : Nat) = 0 := by
  refine ⟨by decide, by decide, by decide, rfl⟩

/-- C2 (amended): among the responses the Status Query Endpoint itself reports, the
transition to DatabaseFallback occurs exactly when the first of these holds: elapsed
reaches 120 seconds at poll entry, a not-found response arrives after 30 seconds
elapsed, or a pending response arrives after 60 seconds elapsed — gateway-level
failures are neither required for the pending trigger nor a trigger by themselves. -/
theorem C2_fallback_trigger_characterization (pid : String) (elapsed g : Nat) (probe : Bool)
    (resp : StatusResponse) (hscope : endpointReport resp = true) :
    ((pollStep pid elapsed g probe resp).isFallback = true ↔
      (120000 ≤ elapsed ∨
       (resp = .httpError 404 ∧ 30000 < elapsed) ∨
       ((∃ d, resp = .statusData d ∧ d.status = "pending") ∧ 60000 < elapsed))) := by
  by_cases h120 : elapsed < 120000
  case neg =>
    have : pollStep pid elapsed g probe resp = .fallback 0 := by
      simp only [pollStep]
      rw [if_neg (by omega), if_neg h120]
    simp [this, PollAction.isFallback]
    omega
  case pos =>
    have hbody : ∀ interval, pollStep pid elapsed g probe resp =
        pollStepBody pid elapsed g probe interval resp →
        ((pollStepBody pid elapsed g probe interval resp).isFallback = true ↔
          (120000 ≤ elapsed ∨
           (resp = .httpError 404 ∧ 30000 < elapsed) ∨
           ((∃ d, resp = .statusData d ∧ d.status = "pending") ∧ 60000 < elapsed))) := by
      intro interval _
      cases resp with
      | httpError code =>
          simp only [endpointReport, decide_eq_true_eq] at hscope
          by_cases hc : code = 404
          · subst hc
            simp only [pollStepBody, if_pos rfl]
            by_cases h30 : 30000 < elapsed
            · simp [h30, PollAction.isFallback]
            · simp [h30, PollAction.isFallback]
              omega
          · have hgw : code = 524 ∨ code = 502 ∨ code = 503 := by tauto
            simp only [pollStepBody, if_neg hc, if_pos hgw]
            constructor
            · intro hfb
              exfalso
              revert hfb
              split
              · split <;> simp [PollAction.isFallback]
              · simp [PollAction.isFallback]
            · intro hyp
              rcases hyp with h | ⟨heq, _⟩ | ⟨⟨d, heq, _⟩, _⟩
              · omega
              · exact absurd heq (by simp [hc])
              · exact absurd heq (by simp)
      | emptyBody =>
          simp only [pollStepBody]
          simp [PollAction.isFallback]
          omega
      | invalidJson =>
          simp only [pollStepBody]
          simp [PollAction.isFallback]
          omega
      | statusData d =>
          simp only [pollStepBody]
          by_cases hcomp : d.status = "completed"
          · rw [if_pos hcomp]
            constructor
            · intro hfb
              exfalso
              revert hfb
              cases d.result <;> simp [PollAction.isFallback]
            · intro hyp
              rcases hyp with h | ⟨heq, _⟩ | ⟨⟨d', heq, hpend⟩, _⟩
              · omega
              · exact absurd heq (by simp)
              · cases heq
                rw [hcomp] at hpend
                exact absurd hpend (by decide)
          · rw [if_neg hcomp]
            by_cases herr : d.status = "error"
            · rw [if_pos herr]
              constructor
              · intro hfb
                exact absurd hfb (by simp [PollAction.isFallback])
              · intro hyp
                rcases hyp with h | ⟨heq, _⟩ | ⟨⟨d', heq, hpend⟩, _⟩
                · omega
                · exact absurd heq (by simp)
                · cases heq
                  rw [herr] at hpend
                  exact absurd hpend (by decide)
            · rw [if_neg herr]
              by_cases hpend : d.status = "pending" ∧ 60000 < elapsed
              · rw [if_pos hpend]
                simp only [PollAction.isFallback, true_iff]
                exact Or.inr (Or.inr ⟨⟨d, rfl, hpend.1⟩, hpend.2⟩)
              · rw [if_neg hpend]
                simp only [PollAction.isFallback, Bool.false_eq_true, false_iff]
                intro hyp
                rcases hyp with h | ⟨heq, _⟩ | ⟨⟨d', heq, hp⟩, h60⟩
                · omega
                · exact absurd heq (by simp)
                · cases heq
                  exact hpend ⟨hp, h60⟩
      | thrown msg => simp [endpointReport] at hscope
    by_cases h30 : elapsed < 30000
    · have heq : pollStep pid elapsed g probe resp =
          pollStepBody pid elapsed g probe 500 resp := by
        simp only [pollStep, if_pos h30]
      rw [heq]; exact hbody 500 heq
    · have heq : pollStep pid elapsed g probe resp =
          pollStepBody pid elapsed g probe 2000 resp := by
        simp only [pollStep, if_neg h30, if_pos h120]
      rw [heq]; exact hbody 2000 heq

/-- Witness for the amended C2: a not-found response at 31 seconds elapsed is in scope
and triggers the fallback switch (after the 2-second grace delay). -/
theorem C2_fallback_trigger_characterization_witness :
    endpointReport (.httpError 404) = true ∧
    (pollStep "p1" 31000 0 false (.httpError 404)).isFallback = true :=
  ⟨by decide,
   (C2_fallback_trigger_characterization "p1" 31000 0 false (.httpError 404)
       (by decide)).mpr (Or.inr (Or.inl ⟨rfl, by decide⟩))⟩

/-- C3: the background continuation leaves a gateway-level failure (502/503/524 or its
own abort) as `pending` with no error set — never `error` — and whenever it records
`error`, the outcome was a genuine application-level failure (a non-gateway HTTP error
or an exception not speaking of timeouts). -/
theorem C3_gateway_failures_stay_pending (prevStart : Option Nat) (now : Nat)
    (projectId : String) (out : UpstreamOutcome) :
    (isGatewayOutcome out = true →
      (handleWebhookResult prevStart now projectId out).status = .pending ∧
      (handleWebhookResult prevStart now projectId out).error = none) ∧
    ((handleWebhookResult prevStart now projectId out).status = .error →
      isApplicationFailure out = true) := by
  cases out with
  | ok raw => simp [handleWebhookResult, isGatewayOutcome]
  | abortError => simp [handleWebhookResult, isGatewayOutcome]
  | httpError code statusText bodySnippet =>
      by_cases hgw : code = 524 ∨ code = 502 ∨ code = 503
      · constructor
        · intro _
          simp [handleWebhookResult, if_pos hgw]
        · intro habs
          exfalso
          revert habs
          simp [handleWebhookResult, if_pos hgw]
      · constructor
        · intro hg
          exfalso
          simp only [isGatewayOutcome, decide_eq_true_eq] at hg
          exact hgw hg
        · intro herr
          simp only [handleWebhookResult, if_neg hgw] at herr
          by_cases hmsg : (jsIncludes (webhookFailMessage code statusText bodySnippet) "524" ||
              jsIncludes (webhookFailMessage code statusText bodySnippet) "timeout") = true
          · rw [if_pos hmsg] at herr
            exact absurd herr (by simp)
          · simp only [Bool.or_eq_true, not_or, Bool.not_eq_true] at hmsg
            simp [isApplicationFailure, hgw, hmsg.1, hmsg.2]
  | thrown msg =>
      constructor
      · intro hg
        exact absurd hg (by simp [isGatewayOutcome])
      · intro herr
        simp only [handleWebhookResult] at herr
        by_cases hmsg : (jsIncludes msg "524" || jsIncludes msg "timeout") = true
        · rw [if_pos hmsg] at herr
          exact absurd herr (by simp)
        · simp only [Bool.or_eq_true, not_or, Bool.not_eq_true] at hmsg
          simp [isApplicationFailure, hmsg.1, hmsg.2]

/-- Witness for C3: a 524 at the gateway leaves the record pending, and a genuine 400
from the workflow (message free of timeout wording) is recorded as an error. -/
theorem C3_gateway_failures_stay_pending_witness :
    (handleWebhookResult (some 7) 10 "p1" (.httpError 524 "" "")).status = .pending ∧
    isApplicationFailure (.httpError 400 "Bad Request" "invalid payload") = true :=
  ⟨((C3_gateway_failures_stay_pending (some 7) 10 "p1" (.httpError 524 "" "")).1
      (by decide)).1,
   by decide⟩

/-- C6 counterexample: the accept path stores a `pending` record with `result` and
`error` both null, so "exactly one of result/error is non-null" fails for it. -/
theorem C6_counterexample :
    WriterRecord (acceptRecord 0) ∧
    ¬(((acceptRecord 0).result.isSome = true ∧ (acceptRecord 0).error.isSome = false) ∨
      ((acceptRecord 0).result.isSome = false ∧ (acceptRecord 0).error.isSome = true)) :=
  ⟨WriterRecord.accept 0, by decide⟩

/-- C6 (amended): every record any writer stores has status in
pending/completed/error, with `result` non-null exactly when status is `completed` and
`error` non-null exactly when status is `error` — hence at most one of the two is
non-null, and a `pending` record has both null. -/
theorem C6_registry_record_invariant (r : OperationState) (h : WriterRecord r) :
    (r.result.isSome = true ↔ r.status = .completed) ∧
    (r.error.isSome = true ↔ r.status = .error) := by
  cases h with
  | accept now => simp [acceptRecord]
  | backgroundCatch now msg => simp [backgroundCatchRecord]
  | callback projectId resp sj startTime => simp
  | background prevStart now projectId out =>
      cases out with
      | ok raw => simp [handleWebhookResult]
      | abortError => simp [handleWebhookResult]
      | httpError code statusText bodySnippet =>
          simp only [handleWebhookResult]
          split
          · simp
          · split <;> simp
      | thrown msg =>
          simp only [handleWebhookResult]
          split <;> simp

/-- Witness for the amended C6 on a concrete writer record. -/
theorem C6_registry_record_invariant_witness :
    ((acceptRecord 3).result.isSome = true ↔ (acceptRecord 3).status = .completed) ∧
    ((acceptRecord 3).error.isSome = true ↔ (acceptRecord 3).status = .error) :=
  C6_registry_record_invariant (acceptRecord 3) (WriterRecord.accept 3)

/-- Deleting a key removes its binding. -/
theorem storeGet_storeDelete_self (id : String) (s : OpStore) :
    storeGet (storeDelete id s) id = none := by
  induction s with
  | nil => rfl
  | cons kv t ih =>
      obtain ⟨k, v⟩ := kv
      by_cases hk : k = id
      · simpa [storeDelete, List.filter_cons, hk] using ih
      · simpa [storeDelete, List.filter_cons, hk, storeGet] using ih

/-- Deleting a different key leaves a lookup unchanged. -/
theorem storeGet_storeDelete_ne (k id : String) (s : OpStore) (h : k ≠ id) :
    storeGet (storeDelete k s) id = storeGet s id := by
  induction s with
  | nil => rfl
  | cons kv t ih =>
      obtain ⟨k', v⟩ := kv
      by_cases hid : k' = id
      · simp [storeDelete, List.filter_cons, storeGet, hid, Ne.symm h]
      · by_cases hk : k' = k
        · simpa [storeDelete, List.filter_cons, storeGet, hk, hid, h] using ih
        · simpa [storeDelete, List.filter_cons, storeGet, hk, hid] using ih

/-- A deleted key is absent from the key listing. -/
theorem storeKeys_storeDelete_self (id : String) (s : OpStore) :
    id ∉ storeKeys (storeDelete id s) := by
  intro hmem
  simp only [storeKeys, storeDelete, List.mem_map] at hmem
  obtain ⟨kv, hkv, hfst⟩ := hmem
  have hp := List.of_mem_filter hkv
  rw [hfst] at hp
  simp at hp

/-- `store.set` behaves as a pointwise map update under `store.get`. -/
theorem storeGet_storeSet (k : String) (v : OperationState) (s : OpStore) (id : String) :
    storeGet (storeSet k v s) id = if k = id then some v else storeGet s id := by
  by_cases hk : k = id
  · simp [storeSet, storeGet, hk]
  · simp [storeSet, storeGet, hk, storeGet_storeDelete_ne k id s hk]

/-- The cleanup sweep keeps a pending record and keeps its lookup result. -/
theorem storeGet_cleanup_pending (now : Nat) (id : String) (op : OperationState)
    (s : OpStore) (hlook : storeGet s id = some op) (hp : op.status = .pending) :
    storeGet (cleanup now s) id = some op := by
  induction s with
  | nil => simp [storeGet] at hlook
  | cons kv t ih =>
      obtain ⟨k, v⟩ := kv
      by_cases hk : k = id
      · subst hk
        simp only [storeGet, if_pos rfl] at hlook
        obtain rfl : v = op := Option.some.inj hlook
        simp only [cleanup, List.filter_cons]
        split
        · simp [storeGet]
        · next hcond => simp [hp] at hcond
      · simp only [storeGet, if_neg hk] at hlook
        have := ih hlook
        simp only [cleanup, List.filter_cons] at this ⊢
        split
        · simpa [storeGet, hk] using this
        · exact this

/-- A non-empty necessary condition of a successful `startsWith "op_"`. -/
theorem jsStartsWith_op_ne_empty (id : String) (h : jsStartsWith id "op_" = true) :
    id ≠ "" := by
  intro heq
  subst heq
  exact absurd h (by decide)

/-- C7 (amended): a terminal record older than one hour whose id is well-formed
(starts with `op_`) is answered 410 by the status GET and removed, so its id is gone
from subsequent listKeys; and a `pending` record is never evicted by age — neither by
the status GET nor by the hourly sweep. -/
theorem C7_retention_and_pending_safety (now : Nat) (s : OpStore) (id : String)
    (op : OperationState) (hlook : storeGet s id = some op) :
    (jsStartsWith id "op_" = true → op.status ≠ .pending →
      op.startTime + CLEANUP_INTERVAL < now →
      statusGET now s id = (410, storeDelete id s) ∧
      storeGet (storeDelete id s) id = none ∧
      id ∉ storeKeys (storeDelete id s)) ∧
    (op.status = .pending →
      (statusGET now s id).2 = s ∧
      storeGet (cleanup now s) id = some op) := by
  constructor
  · intro hfmt hterm hage
    have hne : id ≠ "" := jsStartsWith_op_ne_empty id hfmt
    have hcond : op.startTime < now - (60 * 60 * 1000) ∧ op.status ≠ .pending := by
      refine ⟨?_, hterm⟩
      have : CLEANUP_INTERVAL = 60 * 60 * 1000 := rfl
      omega
    refine ⟨?_, storeGet_storeDelete_self id s, storeKeys_storeDelete_self id s⟩
    simp only [statusGET, hlook]
    rw [if_neg hne, if_neg (fun hn => hn hfmt), if_pos hcond]
  · intro hpend
    constructor
    · by_cases hne : id = ""
      · simp [statusGET, hne]
      · by_cases hfm : jsStartsWith id "op_" = true
        · have hcond : ¬(op.startTime < now - (60 * 60 * 1000) ∧ op.status ≠ .pending) := by
            simp [hpend]
          simp [statusGET, hne, hfm, hlook, hcond]
        · simp [statusGET, hne, hfm]
    · exact storeGet_cleanup_pending now id op s hlook hpend

/-- Witness for the amended C7: a completed record two hours old behind a well-formed
id is answered 410 and evicted. -/
theorem C7_retention_and_pending_safety_witness :
    statusGET 7201000 [("op_1", ⟨.completed, 1000, some (completedFallbackResponse "p1"), none⟩)]
        "op_1" =
      (410, storeDelete "op_1"
        [("op_1", ⟨.completed, 1000, some (completedFallbackResponse "p1"), none⟩)]) :=
  ((C7_retention_and_pending_safety 7201000
      [("op_1", ⟨.completed, 1000, some (completedFallbackResponse "p1"), none⟩)] "op_1"
      ⟨.completed, 1000, some (completedFallbackResponse "p1"), none⟩ (by decide)).1
    (by decide) (by decide) (by decide)).1

/-- C7 counterexample: the callback endpoint accepts an operation id without the `op_`
prefix and stores a terminal record under it; once that record is over an hour old, a
status GET for its id returns 400 — not 410 — and does not remove it from the keys. -/
theorem C7_counterexample :
    (processCallback 1000 ([] : OpStore)
        ⟨some "bad", some "p1", some ⟨some "done", some ⟨none, none, none, none⟩⟩, none⟩).1 =
      200 ∧
    storeGet (processCallback 1000 ([] : OpStore)
        ⟨some "bad", some "p1", some ⟨some "done", some ⟨none, none, none, none⟩⟩, none⟩).2
        "bad" =
      some ⟨.completed, 1000,
        some (callbackResultPayload (some "p1") "done" ⟨none, none, none, none⟩), none⟩ ∧
    1000 + CLEANUP_INTERVAL < 7201000 ∧
    statusGET 7201000
        (processCallback 1000 ([] : OpStore)
          ⟨some "bad", some "p1", some ⟨some "done", some ⟨none, none, none, none⟩⟩, none⟩).2
        "bad" =
      (400,
        (processCallback 1000 ([] : OpStore)
          ⟨some "bad", some "p1", some ⟨some "done", some ⟨none, none, none, none⟩⟩, none⟩).2) ∧
    "bad" ∈ storeKeys (processCallback 1000 ([] : OpStore)
        ⟨some "bad", some "p1", some ⟨some "done", some ⟨none, none, none, none⟩⟩, none⟩).2 := by
  refine ⟨by decide, by decide, by decide, by decide, by decide⟩

/-- C8: once an operation is resolved to a terminal status by processing a callback,
processing the very same callback again (a duplicate delivery) leaves the user-visible
outcome — status and result — of every operation in the registry unchanged. -/
theorem C8_duplicate_callback_idempotent (now1 now2 : Nat) (s : OpStore)
    (p : CallbackPayload) (opId : String) (op : OperationState)
    (hid : p.operationId = some opId)
    (_hop : storeGet (processCallback now1 s p).2 opId = some op)
    (_hterm : op.status = .completed ∨ op.status = .error) :
    ∀ id, (storeGet (processCallback now2 (processCallback now1 s p).2 p).2 id).map
            (fun o => (o.status, o.result)) =
          (storeGet (processCallback now1 s p).2 id).map (fun o => (o.status, o.result)) := by
  intro id
  by_cases hval : ¬(truthyStr p.operationId = true) ∨ p.result = none
  · -- the callback is rejected (400) both times: the store is never touched
    have hfix : ∀ now s', (processCallback now s' p).2 = s' := by
      intro now s'
      unfold processCallback
      rw [if_pos hval]
    rw [hfix now2]
  · -- the callback is accepted or 500-rejected; in every case the second processing
    -- rewrites the same payload-derived status and result (or leaves the store alone)
    have htr : truthyStr p.operationId = true := by
      by_contra h
      exact hval (Or.inl h)
    obtain ⟨oid, hoid⟩ : ∃ oid, p.operationId = some oid := ⟨opId, hid⟩
    have htr' : truthyStr (some oid) = true := hoid ▸ htr
    obtain ⟨r, hr⟩ : ∃ r, p.result = some r := by
      cases hres : p.result with
      | none => exact absurd (Or.inr hres) hval
      | some r => exact ⟨r, rfl⟩
    cases hresp : r.response_to_user with
    | none =>
        have hfix : ∀ now s', (processCallback now s' p).2 = s' := by
          intro now s'
          simp [processCallback, hoid, hr, hresp, htr']
        rw [hfix now2]
    | some resp =>
        cases hsj : r.updatedStateJson with
        | none =>
            have hfix : ∀ now s', (processCallback now s' p).2 = s' := by
              intro now s'
              simp [processCallback, hoid, hr, hresp, hsj, htr']
            rw [hfix now2]
        | some sj =>
            have hset : ∀ now s', (processCallback now s' p).2 =
                storeSet oid
                  { status := .completed
                    startTime := jsNumOr ((storeGet s' oid).map (·.startTime)) now
                    result := some (callbackResultPayload p.projectId resp sj)
                    error := none } s' := by
              intro now s'
              simp [processCallback, hoid, hr, hresp, hsj, htr']
            rw [hset now2, hset now1]
            simp only [storeGet_storeSet]
            by_cases hoidid : oid = id
            · simp [hoidid]
            · simp [hoidid]

/-- Witness for C8: duplicating a concrete valid callback changes nothing user-visible. -/
theorem C8_duplicate_callback_idempotent_witness :
    (storeGet (processCallback 99
        (processCallback 5 ([] : OpStore)
          ⟨some "op_9", some "p1", some ⟨some "done", some ⟨none, none, none, none⟩⟩, none⟩).2
        ⟨some "op_9", some "p1", some ⟨some "done", some ⟨none, none, none, none⟩⟩, none⟩).2
        "op_9").map (fun o => (o.status, o.result)) =
    (storeGet (processCallback 5 ([] : OpStore)
        ⟨some "op_9", some "p1", some ⟨some "done", some ⟨none, none, none, none⟩⟩, none⟩).2
        "op_9").map (fun o => (o.status, o.result)) :=
  C8_duplicate_callback_idempotent 5 99 []
    ⟨some "op_9", some "p1", some ⟨some "done", some ⟨none, none, none, none⟩⟩, none⟩
    "op_9"
    ⟨.completed, 5, some (callbackResultPayload (some "p1") "done" ⟨none, none, none, none⟩),
      none⟩
    rfl (by decide) (Or.inl rfl) "op_9"

/-- C9 counterexample: the well-formed error shape `{operationId, projectId, error}` is
answered 400, not 200 — the endpoint requires `result` and rejects error callbacks. -/
theorem C9_counterexample :
    (processCallback 0 ([] : OpStore)
        ⟨some "op_2", some "p1", none, some "Workflow failed"⟩).1 = 400 ∧
    (400 : Nat) ≠ 200 := by
  exact ⟨by decide, by decide⟩

/-- C9 (amended): the callback endpoint returns 400 exactly when `operationId` is
missing/empty or `result` is missing (so the error shape is rejected with 400 and
`projectId` is never required), and returns 200 with the success body for the result
shape whose `result` carries `response_to_user` and `updatedStateJson`. -/
theorem C9_callback_status_codes (now : Nat) (s : OpStore) (p : CallbackPayload) :
    ((processCallback now s p).1 = 400 ↔
      (truthyStr p.operationId = false ∨ p.result = none)) ∧
    (∀ opId r resp sj, p.operationId = some opId → p.result = some r →
      truthyStr p.operationId = true → r.response_to_user = some resp →
      r.updatedStateJson = some sj →
      (processCallback now s p).1 = 200) := by
  constructor
  · by_cases hval : ¬(truthyStr p.operationId = true) ∨ p.result = none
    · have h4 : (processCallback now s p).1 = 400 := by
        unfold processCallback
        rw [if_pos hval]
      simp only [h4, true_iff]
      rcases hval with h | h
      · exact Or.inl (by simpa using h)
      · exact Or.inr h
    · have htr : truthyStr p.operationId = true := by
        by_contra h
        exact hval (Or.inl h)
      have hres : p.result ≠ none := by
        intro h
        exact hval (Or.inr h)
      have hcode : (processCallback now s p).1 = 500 ∨ (processCallback now s p).1 = 200 := by
        cases hoid : p.operationId with
        | none => rw [hoid] at htr; exact absurd htr (by simp [truthyStr])
        | some oid =>
            have htr' : truthyStr (some oid) = true := hoid ▸ htr
            cases hr : p.result with
            | none => exact absurd hr hres
            | some r =>
                cases hresp : r.response_to_user with
                | none =>
                    left
                    simp [processCallback, hoid, hr, hresp, htr']
                | some resp =>
                    cases hsj : r.updatedStateJson with
                    | none =>
                        left
                        simp [processCallback, hoid, hr, hresp, hsj, htr']
                    | some sj =>
                        right
                        simp [processCallback, hoid, hr, hresp, hsj, htr']
      constructor
      · intro h4
        rcases hcode with h | h <;> rw [h4] at h <;> exact absurd h (by decide)
      · intro hyp
        exfalso
        rcases hyp with h | h
        · rw [htr] at h; exact absurd h (by decide)
        · exact hres h
  · intro opId r resp sj hoid hr htr hresp hsj
    have htr' : truthyStr (some opId) = true := hoid ▸ htr
    simp [processCallback, hoid, hr, hresp, hsj, htr']

/-- Witness for the amended C9: a full result-shape callback is answered 200. -/
theorem C9_callback_status_codes_witness :
    (processCallback 0 ([] : OpStore)
        ⟨some "op_3", some "p1", some ⟨some "ok", some ⟨none, none, none, none⟩⟩, none⟩).1 =
      200 :=
  (C9_callback_status_codes 0 []
      ⟨some "op_3", some "p1", some ⟨some "ok", some ⟨none, none, none, none⟩⟩, none⟩).2
    "op_3" ⟨some "ok", some ⟨none, none, none, none⟩⟩ "ok" ⟨none, none, none, none⟩
    rfl rfl (by decide) rfl rfl

/-- Membership through sorted insertion. -/
theorem mem_insertByTs (m x : Message) (l : List Message) :
    m ∈ insertByTs x l ↔ m = x ∨ m ∈ l := by
  induction l with
  | nil => simp [insertByTs]
  | cons y ys ih =>
      simp only [insertByTs]
      split
      · simp
      · simp only [List.mem_cons, ih]
        tauto

/-- Sorting by timestamp preserves membership. -/
theorem mem_sortByTs (m : Message) (l : List Message) :
    m ∈ sortByTs l ↔ m ∈ l := by
  induction l with
  | nil => simp [sortByTs]
  | cons y ys ih =>
      simp only [sortByTs, mem_insertByTs, ih, List.mem_cons]

/-- Some message with the given id lives in the list. -/
def hasId (l : List Message) (i : String) : Prop :=
  ∃ m ∈ l, m.id = i

/-- One merge step never loses an id already present. -/
theorem hasId_mergeStep (acc : List Message) (r : Message) (i : String)
    (h : hasId acc i) : hasId (mergeStep acc r) i := by
  obtain ⟨m, hm, hi⟩ := h
  unfold mergeStep
  split
  · exact ⟨m, hm, hi⟩
  · exact ⟨m, List.mem_append_left _ hm, hi⟩

/-- After one merge step, the stepped message's id is present. -/
theorem hasId_mergeStep_self (acc : List Message) (r : Message) :
    hasId (mergeStep acc r) r.id := by
  unfold mergeStep
  split
  · next hany =>
      obtain ⟨m, hm, he⟩ := List.any_eq_true.mp hany
      exact ⟨m, hm, by simpa using he⟩
  · exact ⟨_, List.mem_append_right _ (List.mem_singleton_self _), rfl⟩

/-- Folding merge steps never loses an id already present. -/
theorem hasId_foldl_mergeStep (rs : List Message) (acc : List Message) (i : String)
    (h : hasId acc i) : hasId (rs.foldl mergeStep acc) i := by
  induction rs generalizing acc with
  | nil => exact h
  | cons x xs ih => exact ih (mergeStep acc x) (hasId_mergeStep acc x i h)

/-- Folding merge steps establishes the id of every folded message. -/
theorem hasId_foldl_mergeStep_mem (rs : List Message) :
    ∀ (acc : List Message) (r : Message), r ∈ rs → hasId (rs.foldl mergeStep acc) r.id := by
  induction rs with
  | nil =>
      intro acc r h
      exact absurd h (List.not_mem_nil r)
  | cons x xs ih =>
      intro acc r h
      rcases List.mem_cons.mp h with rfl | hxs
      · exact hasId_foldl_mergeStep xs (mergeStep acc r) r.id (hasId_mergeStep_self acc r)
      · exact ih (mergeStep acc x) r hxs

/-- C4: a user message added to the local history less than 30 seconds before the merge
is present (by id) in the merged history, whatever the remote history contains and
whichever history the merge chooses as its base. -/
theorem C4_recent_user_message_preserved (now : Nat)
    (existingHistory normalizedSupabaseHistory : List Message) (msg : Message)
    (hmem : msg ∈ existingHistory) (hrole : msg.role = "user")
    (hts : now - 30000 < msg.timestamp) :
    ∃ m ∈ mergeHistories now existingHistory normalizedSupabaseHistory, m.id = msg.id := by
  have hfilt : msg ∈ recentUserMessages now existingHistory := by
    apply List.mem_filter.mpr
    refine ⟨hmem, ?_⟩
    simp [hrole, hts]
  unfold mergeHistories
  split
  · exact ⟨msg, hmem, rfl⟩
  · split
    · have := hasId_foldl_mergeStep_mem _ normalizedSupabaseHistory msg hfilt
      obtain ⟨m, hm, hi⟩ := this
      exact ⟨m, (mem_sortByTs m _).mpr hm, hi⟩
    · exact ⟨msg, hmem, rfl⟩

/-- Witness for C4: a freshly sent user message survives a merge that prefers the longer
remote history. -/
theorem C4_recent_user_message_preserved_witness :
    ∃ m ∈ mergeHistories 40000
        [⟨"u1", "hi", "user", 35000, [], none⟩]
        [⟨"s1", "welcome", "assistant", 1000, [], none⟩,
         ⟨"s2", "draft ready", "assistant", 2000, [], none⟩],
      m.id = "u1" :=
  C4_recent_user_message_preserved 40000
    [⟨"u1", "hi", "user", 35000, [], none⟩]
    [⟨"s1", "welcome", "assistant", 1000, [], none⟩,
     ⟨"s2", "draft ready", "assistant", 2000, [], none⟩]
    ⟨"u1", "hi", "user", 35000, [], none⟩
    (by simp) rfl (by decide)

end HollyStudio
